import Mathlib

/-!
Shallow embedding of the digital-twin grounding and execution engine
(entity resolution, query executors, update validation, model mutation)
of the `dtdl` repository, together with theorems checking the
natural-language specification against this embedding.

Conventions of the embedding:
* JavaScript numbers are modelled as `ℚ` (all constants appearing in the
  source are decimal and all claim-relevant arithmetic is exact).
* `undefined` / absent fields are modelled as `Option`.
* Thrown domain errors are modelled with `Except` / `Option`.
* JS `Map` objects keyed by entity id are modelled as lists in insertion
  order (ids are unique by construction at schema-import time).
-/

namespace DTDL

/-- Runtime JS value as far as the engine inspects it: the validator and
the executors only ever branch on `typeof v` being number / string /
boolean, and compare values with `===`. -/
inductive JSValue where
  | num (q : ℚ)
  | str (s : String)
  | bool (b : Bool)
deriving DecidableEq, Repr

/-- JS `typeof` for the values above. -/
def jsTypeof : JSValue → String
  | .num _ => "number"
  | .str _ => "string"
  | .bool _ => "boolean"

/-- JS string truthiness for an optional string field: `undefined` and the
empty string are falsy. -/
def jsStrTruthy : Option String → Bool
  | none => false
  | some s => s ≠ ""

/-- JS `a || b` for an optional string `a` with string default `b`
(`undefined` and `""` fall through to the default). -/
def jsStrOr (a : Option String) (b : String) : String :=
  match a with
  | none => b
  | some s => if s = "" then b else s

/-- JS whitespace test (`\s`) restricted to the ASCII whitespace that can
occur in entity references. -/
def isWS (c : Char) : Bool :=
  c = ' ' ∨ c = '\t' ∨ c = '\n' ∨ c = '\r'

/-- ASCII lower-casing of a character, as JS `toLowerCase` acts on the
ASCII identifiers used by the model. -/
def lowerChar (c : Char) : Char :=
  if 'A' ≤ c ∧ c ≤ 'Z' then Char.ofNat (c.toNat + 32) else c

/-- JS `toLowerCase` on a character list. -/
def lowerStr (cs : List Char) : List Char :=
  cs.map lowerChar

/-- JS `s.replace(/\s+/g, "_")`: every maximal whitespace run becomes a
single underscore.  The boolean argument records whether the previous
character belonged to a whitespace run. -/
def replaceWSRuns : Bool → List Char → List Char
  | _, [] => []
  | inRun, c :: rest =>
    if isWS c then
      if inRun then replaceWSRuns true rest
      else '_' :: replaceWSRuns true rest
    else c :: replaceWSRuns false rest

/-- JS `s.trim()`: strip leading and trailing whitespace. -/
def trimWS (cs : List Char) : List Char :=
  ((cs.dropWhile isWS).reverse.dropWhile isWS).reverse

/-- Substring test: does `needle` occur contiguously in `hay`
(JS `hay.includes(needle)`)? -/
def substrAt (needle : List Char) : List Char → Bool
  | [] => needle.isEmpty
  | c :: rest => needle.isPrefixOf (c :: rest) || substrAt needle rest

/-- JS `hay.includes(needle)` on strings. -/
def strIncludes (hay needle : String) : Bool :=
  substrAt needle.data hay.data

/-- JS `s.split(re)` for a separator character class: maximal separator
runs split the string, and boundary separators contribute empty fields
(`"_a".split(/[_\s]+/)` is `["", "a"]`).  `cur` is the current field
being accumulated in reverse, `inSep` records whether the previous
character was a separator. -/
def splitSepGo (isSep : Char → Bool) (cur : List Char) (inSep : Bool) :
    List Char → List (List Char)
  | [] => [cur.reverse]
  | c :: rest =>
    if isSep c then
      if inSep then splitSepGo isSep cur true rest
      else cur.reverse :: splitSepGo isSep [] true rest
    else splitSepGo isSep (c :: cur) false rest

/-- JS `s.split(/[_\s]+/)`. -/
def splitUnderscoreWS (cs : List Char) : List (List Char) :=
  splitSepGo (fun c => c = '_' || isWS c) [] false cs

/-- Entity-reference normalisation used by the resolver:
`reference.toLowerCase().replace(/\s+/g, "_").trim()`. -/
def normalizeRef (reference : String) : List Char :=
  trimWS (replaceWSRuns false (lowerStr reference.data))

/-- Telemetry record (`src/domain/TelemetryRecord.ts`): a timestamped
observation with independently optional sensor fields.  `timestamp` is
the epoch-millisecond value of the JS `Date`. -/
structure TelemetryRecord where
  id : String := ""
  timestamp : ℤ := 0
  truckId : String := ""
  status : Option String := none
  payload : Option ℚ := none
  speedMph : Option ℚ := none
  posX : Option ℚ := none
  posY : Option ℚ := none
  posZ : Option ℚ := none
  headingDeg : Option ℚ := none
  haulPhase : Option String := none
  haulPathId : Option String := none
  engineTemp : Option ℚ := none
  fuelLevel : Option ℚ := none
  fuelConsumptionRate : Option ℚ := none
  brakePedalPos : Option ℚ := none
  throttlePos : Option ℚ := none
  vibrationLevel : Option ℚ := none
  tirePressureFL : Option ℚ := none
  tirePressureFR : Option ℚ := none
  tirePressureRLO : Option ℚ := none
  tirePressureRLI : Option ℚ := none
  tirePressureRRO : Option ℚ := none
  tirePressureRRI : Option ℚ := none
deriving DecidableEq, Repr

/-- Dynamic field access `(record as any)[fieldName]` over the declared
fields of `TelemetryRecord`. -/
def TelemetryRecord.getField (r : TelemetryRecord) (name : String) : Option JSValue :=
  if name = "id" then some (.str r.id)
  else if name = "truckId" then some (.str r.truckId)
  else if name = "status" then r.status.map .str
  else if name = "payload" then r.payload.map .num
  else if name = "speedMph" then r.speedMph.map .num
  else if name = "posX" then r.posX.map .num
  else if name = "posY" then r.posY.map .num
  else if name = "posZ" then r.posZ.map .num
  else if name = "headingDeg" then r.headingDeg.map .num
  else if name = "haulPhase" then r.haulPhase.map .str
  else if name = "haulPathId" then r.haulPathId.map .str
  else if name = "engineTemp" then r.engineTemp.map .num
  else if name = "fuelLevel" then r.fuelLevel.map .num
  else if name = "fuelConsumptionRate" then r.fuelConsumptionRate.map .num
  else if name = "brakePedalPos" then r.brakePedalPos.map .num
  else if name = "throttlePos" then r.throttlePos.map .num
  else if name = "vibrationLevel" then r.vibrationLevel.map .num
  else if name = "tirePressureFL" then r.tirePressureFL.map .num
  else if name = "tirePressureFR" then r.tirePressureFR.map .num
  else if name = "tirePressureRLO" then r.tirePressureRLO.map .num
  else if name = "tirePressureRLI" then r.tirePressureRLI.map .num
  else if name = "tirePressureRRO" then r.tirePressureRRO.map .num
  else if name = "tirePressureRRI" then r.tirePressureRRI.map .num
  else none

/-- Per-property constraints declared on the entity itself
(`PropertyConstraints` in `src/domain/Entity.ts`). -/
structure PropertyConstraints where
  min : Option ℚ := none
  max : Option ℚ := none
  allowedValues : Option (List JSValue) := none
  readOnly : Option Bool := none
deriving DecidableEq, Repr

/-- Cached property view (`PropertyValue` in `src/domain/Entity.ts`). -/
structure PropertyValue where
  value : Option JSValue := none
  type : String := "string"
  editable : Option Bool := none
  constraints : Option PropertyConstraints := none
deriving DecidableEq, Repr

/-- Item of an entity's DTDL `contents` array, as far as the engine
inspects it: the `@type` tag, the name, the current value and the
declared initial (default) value. -/
structure ContentItem where
  atType : String := "Property"
  name : String := ""
  value : Option JSValue := none
  initialValue : Option JSValue := none
deriving DecidableEq, Repr

/-- Twin entity (`Entity` in `src/domain/Entity.ts`), restricted to the
fields the engine reads: id, derived type/category, canonical contents
list, derived property cache and relationships map.  The `Record`s are
modelled as association lists. -/
structure Entity where
  id : String
  type : Option String := none
  contents : Option (List ContentItem) := none
  properties : Option (List (String × PropertyValue)) := none
  relationships : Option (List (String × String)) := none
deriving DecidableEq, Repr

/-- Lookup in an association-list model of a JS `Record`. -/
def recordGet {α : Type} (m : List (String × α)) (key : String) : Option α :=
  (m.find? (fun kv => kv.1 = key)).map (fun kv => kv.2)

/-- Twin model (`src/domain/DTDLModel.ts`): all entities in insertion
order. -/
structure DTDLModel where
  entities : List Entity
deriving DecidableEq, Repr

/-- `DTDLModel.getEntity`: lookup by id. -/
def DTDLModel.getEntity (m : DTDLModel) (id : String) : Option Entity :=
  m.entities.find? (fun e => e.id = id)

/-- `DTDLModel.getAllEntities`: insertion order. -/
def DTDLModel.getAllEntities (m : DTDLModel) : List Entity :=
  m.entities

/-- `DTDLModel.getEntitiesByType`. -/
def DTDLModel.getEntitiesByType (m : DTDLModel) (type : String) : List Entity :=
  m.entities.filter (fun e => e.type = some type)

/-- Result of `DTDLModel.updateEntityProperty`
(`UpdateResult` in `src/domain/Entity.ts`). -/
structure UpdateResult where
  success : Bool
  entityId : String
  property : String
  oldValue : Option JSValue
  newValue : Option JSValue
  error : Option String := none
deriving DecidableEq, Repr

/-- Replace the first list element satisfying `p` by its image under `f`
(in-place mutation of the first match of `Array.prototype.find`). -/
def updateFirst {α : Type} (p : α → Bool) (f : α → α) : List α → List α
  | [] => []
  | x :: xs => if p x then f x :: xs else x :: updateFirst p f xs

/-- Predicate of the `contents.find` call in `updateEntityProperty`:
`c["@type"] === "Property" && c.name === property`. -/
def isPropertyItem (property : String) (c : ContentItem) : Bool :=
  c.atType = "Property" && c.name = property

/-- `DTDLModel.updateEntityProperty` (`src/domain/DTDLModel.ts`).  The
in-place mutation of the shared entity object is modelled by returning
the updated model next to the `UpdateResult`.  On the success path the
cache entry's `value` is overwritten and the first matching `Property`
item of the contents array (when one exists) gets its `value`
overwritten, its `initialValue` untouched; a missing contents item only
produces a console warning in the source. -/
def DTDLModel.updateEntityProperty (m : DTDLModel) (entityId property : String)
    (value : JSValue) : UpdateResult × DTDLModel :=
  match m.getEntity entityId with
  | none =>
    (⟨false, entityId, property, none, some value,
      some ("Entity '" ++ entityId ++ "' not found")⟩, m)
  | some entity =>
    match entity.properties.bind (fun props => recordGet props property) with
    | none =>
      (⟨false, entityId, property, none, some value,
        some ("Property '" ++ property ++ "' does not exist on entity '"
          ++ entityId ++ "'")⟩, m)
    | some pv =>
      let newProps := (entity.properties.getD []).map
        (fun kv => if kv.1 = property then (kv.1, { kv.2 with value := some value }) else kv)
      let newContents := entity.contents.map
        (updateFirst (isPropertyItem property) (fun c => { c with value := some value }))
      let newEntity : Entity :=
        { entity with properties := some newProps, contents := newContents }
      let newModel : DTDLModel :=
        ⟨m.entities.map (fun e => if e.id = entityId then newEntity else e)⟩
      (⟨true, entityId, property, pv.value, some value, none⟩, newModel)

/-- ASCII upper-casing of one character (JS `toUpperCase` on the ASCII
type words). -/
def upperChar (c : Char) : Char :=
  if 'a' ≤ c ∧ c ≤ 'z' then Char.ofNat (c.toNat - 32) else c

/-- ASCII letter test, both cases (the `[a-z]` class under the `/i`
flag). -/
def isAsciiAlpha (c : Char) : Bool :=
  ('a' ≤ c ∧ c ≤ 'z') ∨ ('A' ≤ c ∧ c ≤ 'Z')

/-- Case-insensitive literal prefix: when the lower-cased head of `cs`
equals `lit`, return the remainder. -/
def ciPrefix (lit : List Char) (cs : List Char) : Option (List Char) :=
  if lowerStr (cs.take lit.length) = lit then some (cs.drop lit.length) else none

/-- Matcher for the trailing optional group `(\s*(\d+))?$` of the
typed-identifier regex: `some sub` when the rest of the input matches,
where `sub` is the captured sub-identifier. -/
def tailOptMatch (cs : List Char) : Option (Option (List Char)) :=
  if cs.isEmpty then some none
  else
    let r := cs.dropWhile isWS
    if !r.isEmpty && r.all Char.isDigit then some (some r) else none

/-- Greedy-with-backtracking matcher for `\d+` followed by
`(\s*(\d+))?$`, trying the longest digit run first (the JS engine's
order); `k` bounds the digit-run length still to try. -/
def tryDigitRun (cs : List Char) : ℕ → Option (List Char × Option (List Char))
  | 0 => none
  | k + 1 =>
    match tailOptMatch (cs.drop (k + 1)) with
    | some sub => some (cs.take (k + 1), sub)
    | none => tryDigitRun cs k

/-- Greedy-with-backtracking matcher for `[a-z]+` (case-insensitive)
followed by `(\s*(\d+))?$`. -/
def tryAlphaRun (cs : List Char) : ℕ → Option (List Char × Option (List Char))
  | 0 => none
  | k + 1 =>
    match tailOptMatch (cs.drop (k + 1)) with
    | some sub => some (cs.take (k + 1), sub)
    | none => tryAlphaRun cs k

/-- Matcher for `(\d+|[a-z]+)(\s*(\d+))?$` returning the captured
identifier and optional sub-identifier; the `\d+` alternative is tried
first, as in the source regex. -/
def identTail (cs : List Char) : Option (List Char × Option (List Char)) :=
  match tryDigitRun cs (cs.takeWhile Char.isDigit).length with
  | some res => some res
  | none => tryAlphaRun cs (cs.takeWhile isAsciiAlpha).length

/-- Matcher for `(cat\s*)?(\d+|[a-z]+)(\s*(\d+))?$`: the optional `cat`
literal is tried greedily first. -/
def afterTypeTail (r1 : List Char) : Option (List Char × Option (List Char)) :=
  let r2 := r1.dropWhile isWS
  match ciPrefix "cat".data r2 with
  | some r3 =>
    (match identTail (r3.dropWhile isWS) with
     | some res => some res
     | none => identTail r2)
  | none => identTail r2

/-- Alternation over the type words `truck|loader|route|stockpile|mill|layout`
in source order, returning the captured type word together with the
identifier captures. -/
def tryTypeWords (cs : List Char) :
    List (List Char) → Option (List Char × List Char × Option (List Char))
  | [] => none
  | tw :: rest =>
    match ciPrefix tw cs with
    | some r1 =>
      (match afterTypeTail r1 with
       | some (id, sub) => some (cs.take tw.length, id, sub)
       | none => tryTypeWords cs rest)
    | none => tryTypeWords cs rest

/-- Type-word alternatives of the typed-identifier regex, in source
order. -/
def typeWords : List (List Char) :=
  ["truck".data, "loader".data, "route".data, "stockpile".data,
   "mill".data, "layout".data]

/-- Full matcher for the typed-identifier regex
`/^(haul\s*)?(truck|loader|route|stockpile|mill|layout)\s*(cat\s*)?(\d+|[a-z]+)(\s*(\d+))?$/i`,
returning the captures `(type, identifier, subIdentifier)` of groups
2, 4 and 6.  The optional `haul` prefix is tried greedily first. -/
def typedMatch (cs : List Char) : Option (List Char × List Char × Option (List Char)) :=
  match ciPrefix "haul".data cs with
  | some r =>
    (match tryTypeWords (r.dropWhile isWS) typeWords with
     | some res => some res
     | none => tryTypeWords cs typeWords)
  | none => tryTypeWords cs typeWords

/-- Models `!isNaN(Number(str))` for the loose-token filter: after
trimming, the empty string coerces to `0`; otherwise the string must be
a signed decimal (with optional fraction and exponent), a signed
`Infinity`, or an unsigned radix literal. -/
def parseSignedDigits (cs : List Char) : Bool :=
  let body := match cs with
    | '+' :: r => r
    | '-' :: r => r
    | r => r
  !body.isEmpty && body.all Char.isDigit

/-- Optional exponent part `([eE][+-]?\d+)?` of a JS decimal literal. -/
def parseExpOpt : List Char → Bool
  | [] => true
  | c :: rest => (c = 'e' || c = 'E') && parseSignedDigits rest

/-- Unsigned decimal mantissa with optional exponent, after the optional
sign of a JS number literal. -/
def parseDecTail (cs : List Char) : Bool :=
  let s := cs.span (fun c => c.isDigit)
  match s.2 with
  | '.' :: r2 =>
    let t := r2.span (fun c => c.isDigit)
    (!s.1.isEmpty || !t.1.isEmpty) && parseExpOpt t.2
  | [] => !s.1.isEmpty
  | r1 => !s.1.isEmpty && parseExpOpt r1

/-- Unsigned `0x` / `0o` / `0b` radix literals accepted by JS `Number`. -/
def jsRadixNumber : List Char → Bool
  | '0' :: x :: rest =>
    ((x = 'x' || x = 'X') && !rest.isEmpty && rest.all (fun c => c.isDigit
        || ('a' ≤ c && c ≤ 'f') || ('A' ≤ c && c ≤ 'F'))) ||
    ((x = 'o' || x = 'O') && !rest.isEmpty && rest.all (fun c => '0' ≤ c && c ≤ '7')) ||
    ((x = 'b' || x = 'B') && !rest.isEmpty && rest.all (fun c => c = '0' || c = '1'))
  | _ => false

/-- JS `!isNaN(Number(str))`. -/
def jsNumberNotNaN (p : List Char) : Bool :=
  let t := trimWS p
  if t.isEmpty then true
  else if t = "Infinity".data || t = "+Infinity".data || t = "-Infinity".data then true
  else if jsRadixNumber t then true
  else
    match t with
    | '+' :: r => parseDecTail r
    | '-' :: r => parseDecTail r
    | r => parseDecTail r

/-- Test for `/[a-z]{2,}/i`: two consecutive ASCII letters occur. -/
def hasTwoConsecAlpha : List Char → Bool
  | [] => false
  | [_] => false
  | a :: b :: rest => (isAsciiAlpha a && isAsciiAlpha b) || hasTwoConsecAlpha (b :: rest)

namespace EntityResolver

/-- Stage 1 of `EntityResolver.resolve`: exact (case-sensitive) id
match against the raw reference. -/
def exactStage (reference : String) (model : DTDLModel) : Option Entity :=
  model.getEntity reference

/-- Stage 2: exact id match against the normalised reference. -/
def normalizedStage (normalized : List Char) (model : DTDLModel) : Option Entity :=
  model.getEntity (String.mk normalized)

/-- Stage 3: case-insensitive id equality with the normalised
reference. -/
def caseInsensitiveStage (normalized : List Char) (model : DTDLModel) : Option Entity :=
  model.getAllEntities.find? (fun e => lowerStr e.id.data = normalized)

/-- Stage 4 (partial match): split the normalised reference into tokens
on `_`/whitespace; the first entity whose lower-cased id contains every
token wins. -/
def tokenSubsetStage (normalized : List Char) (model : DTDLModel) : Option Entity :=
  let parts := (splitUnderscoreWS normalized).filter (fun p => p.length > 0)
  if parts.length > 0 then
    model.getAllEntities.find? (fun e =>
      parts.all (fun part => substrAt part (lowerStr e.id.data)))
  else none

/-- Category name for a captured type word
(`truck → HaulTruck`, …, else capitalised word). -/
def typeNameFor (ty : List Char) : String :=
  if ty = "truck".data then "HaulTruck"
  else if ty = "loader".data then "Loader"
  else if ty = "route".data then "HaulRoute"
  else if ty = "stockpile".data then "Stockpile"
  else if ty = "mill".data then "Mill"
  else if ty = "layout".data then "MineLayout"
  else String.mk (match ty with
    | [] => []
    | c :: rest => upperChar c :: rest)

/-- Stage 5 (typed identifier): when the typed-identifier regex matches
the normalised reference, search the entities of the mapped category for
one whose id contains the identifier (and the sub-identifier when
captured). -/
def typedIdentifierStage (normalized : List Char) (model : DTDLModel) : Option Entity :=
  match typedMatch normalized with
  | none => none
  | some (ty, ident, subIdent) =>
    let typeEntities := model.getEntitiesByType (typeNameFor ty)
    match subIdent with
    | some sub =>
      typeEntities.find? (fun e =>
        substrAt (lowerStr ident) (lowerStr e.id.data) &&
        substrAt (lowerStr sub) (lowerStr e.id.data))
    | none =>
      typeEntities.find? (fun e => substrAt (lowerStr ident) (lowerStr e.id.data))

/-- Stage 6 (loose token overlap): from tokens that are numeric of
length > 1 or contain at least two consecutive letters, an entity
matches when at least `min 2 tokenCount` tokens are substrings of its
id. -/
def looseOverlapStage (normalized : List Char) (model : DTDLModel) : Option Entity :=
  let keyParts := (splitUnderscoreWS normalized).filter (fun p =>
    (p.length > 1 && jsNumberNotNaN p) || hasTwoConsecAlpha p)
  if keyParts.length > 0 then
    model.getAllEntities.find? (fun e =>
      (keyParts.filter (fun part => substrAt part (lowerStr e.id.data))).length
        ≥ min 2 keyParts.length)
  else none

/-- `EntityResolver.resolve` (`src/unnamed/part_002`): the fixed
strict-to-loose cascade, each stage tried only when all previous stages
produced nothing; `none` models the thrown `EntityNotFoundError`. -/
def resolve (reference : String) (model : DTDLModel) : Option Entity :=
  let normalized := normalizeRef reference
  match exactStage reference model with
  | some e => some e
  | none =>
  match normalizedStage normalized model with
  | some e => some e
  | none =>
  match caseInsensitiveStage normalized model with
  | some e => some e
  | none =>
  match tokenSubsetStage normalized model with
  | some e => some e
  | none =>
  match typedIdentifierStage normalized model with
  | some e => some e
  | none => looseOverlapStage normalized model

/-- Bulk-update filter (`BulkUpdateFilter` in
`src/domain/CommandIntent.ts`). -/
structure BulkFilter where
  type : Option String := none
  relationship : Option (String × String) := none
deriving DecidableEq, Repr

/-- `EntityResolver.resolveBulk`: references containing `"all"` select
all entities through the optional type and relationship filters;
otherwise single-entity resolution is wrapped in a one-element list.
`none` models the `EntityNotFoundError` thrown by `resolve`. -/
def resolveBulk (reference : String) (model : DTDLModel)
    (filter : Option BulkFilter) : Option (List Entity) :=
  if strIncludes (String.mk (lowerStr reference.data)) "all" then
    let entities := model.getAllEntities
    let entities := match filter.bind (fun f => f.type) with
      | some t => entities.filter (fun e => e.type = some t)
      | none => entities
    let entities := match filter.bind (fun f => f.relationship) with
      | some (name, targetId) => entities.filter (fun e =>
          match e.relationships with
          | none => false
          | some rels => recordGet rels name = some targetId)
      | none => entities
    some entities
  else
    (resolve reference model).map (fun e => [e])

end EntityResolver

/-- Resolved property descriptor: union of `DTDLPropertyInfo` and
`TelemetryPropertyInfo` (`src/domain/PropertyInfo.ts`), with the fields
of the respectively absent variant `none`.  `source` is kept as the
string tag compared by the executors (`"dtdl"` / `"telemetry"`). -/
structure PropInfo where
  name : String
  displayName : Option String := none
  type : String := "number"
  source : String
  telemetryField : Option String := none
  units : Option String := none
  value : Option JSValue := none
  initialValue : Option JSValue := none
  writable : Option Bool := none
deriving DecidableEq, Repr

/-- Aggregate operation of a resolved query. -/
inductive AggOp where
  | average
  | max
  | min
  | sum
deriving DecidableEq, Repr

/-- Time window of a query; only `minutes` is read by the executors. -/
structure TimeWindow where
  minutes : ℚ
deriving DecidableEq, Repr

/-- Path filters of a resolved query. -/
structure QueryFilters where
  sourcePath : Option String := none
  destinationPath : Option String := none
deriving DecidableEq, Repr

/-- Generic execution intent of a resolved query. -/
inductive QIntentKind where
  | get_property
  | aggregate
  | count
  | current
  | relationship
deriving DecidableEq, Repr

/-- Resolved query (`src/unnamed/part_004`), restricted to the fields
the executors read (`targetEntity` and `metadata` are only used by the
response formatter). -/
structure ResolvedQuery where
  intent : QIntentKind
  property : Option PropInfo := none
  operation : Option AggOp := none
  timeWindow : Option TimeWindow := none
  filters : Option QueryFilters := none
deriving DecidableEq, Repr

/-- Executor result (`QueryResult` in `src/unnamed/part_007`); the
optional `metadata` object is flattened into its two read fields. -/
structure QueryResult where
  value : JSValue
  units : String
  recordCount : Option ℕ := none
  timeWindow : Option TimeWindow := none
deriving DecidableEq, Repr

/-- First record carrying the maximal timestamp: the head of the source's
stable descending sort `[...telemetry].sort((a, b) => b.timestamp - a.timestamp)`. -/
def latestRecord : List TelemetryRecord → Option TelemetryRecord
  | [] => none
  | r :: rs =>
    some (rs.foldl (fun best x => if x.timestamp > best.timestamp then x else best) r)

namespace PropertyExecutor

/-- Name-based unit fallbacks of `PropertyExecutor.getUnitsForProperty`. -/
def getUnitsFallback (property : PropInfo) : String :=
  let propertyName := String.mk (lowerStr property.name.data)
  if strIncludes propertyName "temp" || strIncludes propertyName "temperature" then "°F"
  else if strIncludes propertyName "level" || strIncludes propertyName "fuel" then "%"
  else if strIncludes propertyName "heading" then "degrees"
  else if strIncludes propertyName "payload" then "tonnes"
  else if strIncludes propertyName "speed" && property.source = "telemetry" then "km/h"
  else ""

/-- `PropertyExecutor.getUnitsForProperty`: declared units when truthy,
else name-based fallbacks. -/
def getUnitsForProperty (property : PropInfo) : String :=
  match property.units with
  | some u => if u ≠ "" then u else getUnitsFallback property
  | none => getUnitsFallback property

/-- `PropertyExecutor.execute` (`src/services/executors/PropertyExecutor.ts`).
Thrown errors are modelled as `Except.error`. -/
def execute (resolvedQuery : ResolvedQuery) (telemetry : List TelemetryRecord) :
    Except String QueryResult :=
  match resolvedQuery.property with
  | none => .error "Property executor requires a property to be resolved"
  | some property =>
    if property.source = "dtdl" then
      .ok { value := (property.value.orElse (fun _ => property.initialValue)).getD (.str "N/A"),
            units := getUnitsForProperty property }
    else if property.source = "telemetry" then
      match latestRecord telemetry with
      | none =>
        .ok { value := .str "N/A", units := getUnitsForProperty property,
              recordCount := some 0 }
      | some mostRecent =>
        let fieldName := jsStrOr property.telemetryField property.name
        let value := mostRecent.getField fieldName
        if fieldName = "speedMph" then
          match value with
          | some (.num v) =>
            .ok { value := .num (v * 1.60934), units := "km/h",
                  recordCount := some telemetry.length }
          | _ =>
            .ok { value := value.getD (.str "N/A"),
                  units := getUnitsForProperty property,
                  recordCount := some telemetry.length }
        else
          .ok { value := value.getD (.str "N/A"),
                units := getUnitsForProperty property,
                recordCount := some telemetry.length }
    else .error ("Unknown property source: " ++ property.source)

end PropertyExecutor

/-- `TelemetryService.calculateRouteUtilization`
(`src/services/TelemetryService.ts`): `recordCount / windowMinutes * 100`,
each record approximating one minute of occupancy. -/
def calculateRouteUtilization (records : List TelemetryRecord)
    (timeWindowMinutes : ℚ) : ℚ :=
  if records.length = 0 then 0
  else ((records.length : ℚ) / timeWindowMinutes) * 100

namespace AggregateExecutor

/-- Name-based unit fallbacks of `AggregateExecutor.getUnitsForProperty`
(this executor's table differs from the property executor's). -/
def getUnitsFallback (property : Option PropInfo) : String :=
  let propertyName := String.mk (lowerStr ((property.map (fun p => p.name)).getD "").data)
  if strIncludes propertyName "speed" then "km/h"
  else if strIncludes propertyName "temp" || strIncludes propertyName "temperature" then "°F"
  else if strIncludes propertyName "level" || strIncludes propertyName "fuel" then "%"
  else ""

/-- `AggregateExecutor.getUnitsForProperty`: declared units when truthy,
else name-based fallbacks. -/
def getUnitsForProperty (property : Option PropInfo) : String :=
  match property.bind (fun p => p.units) with
  | some u => if u ≠ "" then u else getUnitsFallback property
  | none => getUnitsFallback property

/-- `AggregateExecutor.getAggregateField`: the explicit telemetry
property's field, else the default `speedMph`. -/
def getAggregateField (resolvedQuery : ResolvedQuery) : String :=
  match resolvedQuery.property with
  | some p =>
    if p.source = "telemetry" then jsStrOr p.telemetryField p.name else "speedMph"
  | none => "speedMph"

/-- `AggregateExecutor.extractValues`: numeric values of the field, with
`speedMph` converted to km/h by the factor 1.60934. -/
def extractValues (telemetry : List TelemetryRecord) (fieldName : String) : List ℚ :=
  telemetry.filterMap (fun r =>
    match r.getField fieldName with
    | some (.num v) => some (if fieldName = "speedMph" then v * 1.60934 else v)
    | _ => none)

/-- Fold for `Math.max(...values)` over a nonempty value list. -/
def foldMax (v : ℚ) (vs : List ℚ) : ℚ :=
  vs.foldl (fun a b => if b > a then b else a) v

/-- Fold for `Math.min(...values)` over a nonempty value list. -/
def foldMin (v : ℚ) (vs : List ℚ) : ℚ :=
  vs.foldl (fun a b => if b < a then b else a) v

/-- `AggregateExecutor.execute` (`src/unnamed/part_006`).  The optional
`telemetryService` constructor argument is modelled by the flag
`hasService`; the route-utilization special case additionally requires a
truthy `filters.sourcePath` and a present time window. -/
def execute (hasService : Bool) (resolvedQuery : ResolvedQuery)
    (telemetry : List TelemetryRecord) : Except String QueryResult :=
  match resolvedQuery.operation with
  | none => .error "Aggregate executor requires an operation (average, max, min, sum)"
  | some operation =>
    if telemetry.length = 0 then
      .ok { value := .num 0, units := getUnitsForProperty resolvedQuery.property,
            recordCount := some 0 }
    else if operation = .average && resolvedQuery.property = none &&
        jsStrTruthy (resolvedQuery.filters.bind (fun f => f.sourcePath)) &&
        hasService && resolvedQuery.timeWindow.isSome then
      let minutes := ((resolvedQuery.timeWindow.map (fun w => w.minutes)).getD 0)
      .ok { value := .num (calculateRouteUtilization telemetry minutes),
            units := "%", recordCount := some telemetry.length,
            timeWindow := resolvedQuery.timeWindow }
    else
      let fieldName := getAggregateField resolvedQuery
      match extractValues telemetry fieldName with
      | [] =>
        .ok { value := .num 0, units := getUnitsForProperty resolvedQuery.property,
              recordCount := some telemetry.length }
      | v :: vs =>
        let result : ℚ :=
          match operation with
          | .average => ((v :: vs).foldl (fun sum val => sum + val) 0) / (v :: vs).length
          | .max => foldMax v vs
          | .min => foldMin v vs
          | .sum => (v :: vs).foldl (fun sum val => sum + val) 0
        .ok { value := .num result,
              units := getUnitsForProperty resolvedQuery.property,
              recordCount := some telemetry.length,
              timeWindow := resolvedQuery.timeWindow }

end AggregateExecutor

namespace CountExecutor

/-- Body of the `countTripsBetweenPaths` loop, carrying the
`wasOnSource` flag: a record on the source sets the flag; a record on
the destination while the flag is set counts one trip and clears it. -/
def countBetweenGo (sourcePath destinationPath : String) (wasOnSource : Bool) :
    List TelemetryRecord → ℕ
  | [] => 0
  | record :: rest =>
    let isOnSource := record.haulPathId = some sourcePath
    let isOnDestination := record.haulPathId = some destinationPath
    if isOnSource then countBetweenGo sourcePath destinationPath true rest
    else if isOnDestination && wasOnSource then
      1 + countBetweenGo sourcePath destinationPath false rest
    else countBetweenGo sourcePath destinationPath wasOnSource rest

/-- `CountExecutor.countTripsBetweenPaths` (`src/unnamed/part_006`). -/
def countTripsBetweenPaths (telemetry : List TelemetryRecord)
    (sourcePath destinationPath : String) : ℕ :=
  countBetweenGo sourcePath destinationPath false telemetry

/-- Body of the `countTripsOnPath` loop, carrying the `wasOnPath`
flag: a trip is counted on each transition from not-on-path to
on-path. -/
def countOnPathGo (pathId : String) (wasOnPath : Bool) :
    List TelemetryRecord → ℕ
  | [] => 0
  | record :: rest =>
    let isOnPath := record.haulPathId = some pathId
    (if isOnPath && !wasOnPath then 1 else 0) + countOnPathGo pathId isOnPath rest

/-- `CountExecutor.countTripsOnPath` (`src/unnamed/part_006`). -/
def countTripsOnPath (telemetry : List TelemetryRecord) (pathId : String) : ℕ :=
  countOnPathGo pathId false telemetry

/-- Body of the `countAllPathEntries` loop, carrying the last seen path
id: every change to a truthy path id counts. -/
def countAllGo (lastPathId : Option String) : List TelemetryRecord → ℕ
  | [] => 0
  | record :: rest =>
    let currentPathId := record.haulPathId
    (if jsStrTruthy currentPathId && currentPathId ≠ lastPathId then 1 else 0)
      + countAllGo currentPathId rest

/-- `CountExecutor.countAllPathEntries` (`src/unnamed/part_006`). -/
def countAllPathEntries (telemetry : List TelemetryRecord) : ℕ :=
  countAllGo none telemetry

/-- `CountExecutor.execute` (`src/unnamed/part_006`): dispatch on which
path filters are present (JS truthiness, so empty-string paths count as
absent). -/
def execute (resolvedQuery : ResolvedQuery) (telemetry : List TelemetryRecord) :
    QueryResult :=
  if telemetry.length = 0 then
    { value := .num 0, units := "trips", recordCount := some 0 }
  else
    let sourcePath := resolvedQuery.filters.bind (fun f => f.sourcePath)
    let destinationPath := resolvedQuery.filters.bind (fun f => f.destinationPath)
    let count : ℕ :=
      if jsStrTruthy sourcePath && jsStrTruthy destinationPath &&
          sourcePath ≠ destinationPath then
        countTripsBetweenPaths telemetry (sourcePath.getD "") (destinationPath.getD "")
      else if jsStrTruthy sourcePath then
        countTripsOnPath telemetry (sourcePath.getD "")
      else countAllPathEntries telemetry
    { value := .num count, units := "trips",
      recordCount := some telemetry.length,
      timeWindow := resolvedQuery.timeWindow }

end CountExecutor

/-- Persisted property constraint row (`PropertyConstraint` in
`src/unnamed/part_003`). -/
structure ConstraintRow where
  entityType : String := ""
  property : String := ""
  minValue : Option ℚ := none
  maxValue : Option ℚ := none
  readOnly : Bool := false
  editable : Bool := true
  allowedValues : Option (List JSValue) := none
deriving DecidableEq, Repr

/-- Reason of a validation rejection.  The source returns a distinct
human-readable message template per rule; each constructor carries the
data interpolated into that template. -/
inductive VErr where
  | propNotExist (property entityId : String)
  | propReadOnly (property : String)
  | propNotEditable (property : String)
  | typeMismatch (property expected got : String)
  | belowMin (value minValue : ℚ)
  | aboveMax (value maxValue : ℚ)
  | notAllowed (value : JSValue) (allowed : List JSValue)
deriving DecidableEq, Repr

/-- `ValidationResult` of `UpdateValidator.validate`. -/
structure ValidationResult where
  valid : Bool
  error : Option VErr := none
deriving DecidableEq, Repr

/-- Rejection helper mirroring `{ valid: false, error: ... }`. -/
def vFail (e : VErr) : ValidationResult := ⟨false, some e⟩

/-- `UpdateValidator.validate` (`src/unnamed/part_005`).  The awaited
repository lookup for `(entity.type, property)` is passed in as the
`constraint` argument.  Checks run in source order: existence, cached
read-only flag, constraint-row editability (row authoritative when
present, else the cached `editable` flag), runtime type, numeric bounds
(row value first, else the cached declared bound, per bound), allowed
values (row list first, else the cached list). -/
def validate (entity : Entity) (property : String) (newValue : JSValue)
    (constraint : Option ConstraintRow) : ValidationResult :=
  match entity.properties.bind (fun props => recordGet props property) with
  | none => vFail (.propNotExist property entity.id)
  | some propertyDef =>
    if (propertyDef.constraints.bind (fun c => c.readOnly)) = some true then
      vFail (.propReadOnly property)
    else
      let editableRejected :=
        match constraint with
        | some c => c.readOnly || !c.editable
        | none => propertyDef.editable = some false
      if editableRejected then vFail (.propNotEditable property)
      else
        let expectedType := propertyDef.type
        if expectedType = "number" && jsTypeof newValue ≠ "number" then
          vFail (.typeMismatch property "number" (jsTypeof newValue))
        else if expectedType = "string" && jsTypeof newValue ≠ "string" then
          vFail (.typeMismatch property "string" (jsTypeof newValue))
        else if expectedType = "boolean" && jsTypeof newValue ≠ "boolean" then
          vFail (.typeMismatch property "boolean" (jsTypeof newValue))
        else
          let minValue := (constraint.bind (fun c => c.minValue)).orElse
            (fun _ => propertyDef.constraints.bind (fun c => c.min))
          let maxValue := (constraint.bind (fun c => c.maxValue)).orElse
            (fun _ => propertyDef.constraints.bind (fun c => c.max))
          let rangeError : Option VErr :=
            if expectedType = "number" then
              match newValue with
              | .num numValue =>
                (match minValue with
                 | some m =>
                   if numValue < m then some (.belowMin numValue m)
                   else
                     (match maxValue with
                      | some hi => if numValue > hi then some (.aboveMax numValue hi) else none
                      | none => none)
                 | none =>
                   (match maxValue with
                    | some hi => if numValue > hi then some (.aboveMax numValue hi) else none
                    | none => none))
              | _ => none
            else none
          match rangeError with
          | some e => vFail e
          | none =>
            let allowedValues := (constraint.bind (fun c => c.allowedValues)).orElse
              (fun _ => propertyDef.constraints.bind (fun c => c.allowedValues))
            match allowedValues with
            | some allowed =>
              if !(allowed.contains newValue) then vFail (.notAllowed newValue allowed)
              else ⟨true, none⟩
            | none => ⟨true, none⟩

/-- Domain error (`DomainError` in `src/domain/errors.ts`): message and
stable code. -/
structure DomainError where
  message : String
  code : String
deriving DecidableEq, Repr

/-- Command intent (`src/domain/CommandIntent.ts`); `action` is one of
`set`/`update`/`change` and is passed through unchanged. -/
structure CommandIntent where
  action : String := "set"
  targetEntity : String
  property : String
  value : JSValue
  scope : Option String := none
  filter : Option EntityResolver.BulkFilter := none
deriving DecidableEq, Repr

/-- Result of property resolution
(`PropertyResolutionResult` in `src/domain/PropertyInfo.ts`). -/
structure PropertyResolutionResult where
  success : Bool
  property : Option PropInfo := none
  error : Option String := none
  suggestions : Option (List String) := none
deriving DecidableEq, Repr

/-- Resolved command (`src/unnamed/part_004`). -/
structure ResolvedCommand where
  action : String
  targetEntities : List Entity
  property : PropInfo
  value : JSValue
  scope : String
  filters : Option EntityResolver.BulkFilter := none
deriving DecidableEq, Repr

namespace SchemaResolver

/-- `SchemaResolver.resolveCommand` (`src/unnamed/part_007`).  The
injected property resolver is passed as the function `resolveProp`;
entity resolution uses the embedded `EntityResolver.resolveBulk`.
Errors are the thrown `DomainError`s. -/
def resolveCommand (resolveProp : Entity → String → PropertyResolutionResult)
    (model : DTDLModel) (intent : CommandIntent) :
    Except DomainError ResolvedCommand :=
  match EntityResolver.resolveBulk intent.targetEntity model intent.filter with
  | none =>
    .error ⟨"Entity '" ++ intent.targetEntity ++ "' not found", "ENTITY_NOT_FOUND"⟩
  | some [] =>
    .error ⟨"No entities found matching '" ++ intent.targetEntity ++ "'",
      "ENTITY_NOT_FOUND"⟩
  | some (e :: es) =>
    let propertyResult := resolveProp e intent.property
    match propertyResult.property, propertyResult.success with
    | some p, true =>
      if p.source ≠ "dtdl" then
        .error ⟨"Property '" ++ intent.property ++
          "' is a telemetry field and cannot be modified. Only DTDL properties can be updated.",
          "PROPERTY_NOT_EDITABLE"⟩
      else
        .ok { action := intent.action, targetEntities := e :: es, property := p,
              value := intent.value,
              scope := jsStrOr intent.scope (if (e :: es).length > 1 then "bulk" else "single"),
              filters := intent.filter }
    | _, _ =>
      let suggestionsStr :=
        match propertyResult.suggestions with
        | some l => " Available properties: " ++ String.intercalate ", " l
        | none => ""
      .error ⟨(propertyResult.error.getD "Property not found") ++ "." ++ suggestionsStr,
        "PROPERTY_NOT_FOUND"⟩

end SchemaResolver

/-!
Concrete instances used by the theorems and witnesses below.
-/

/-- The target entity of the cascade-ordering scenario. -/
def haulTruck7772 : Entity :=
  { id := "Haul_Truck_CAT_777_2", type := some "HaulTruck" }

/-- The decoy entity of the cascade-ordering scenario. -/
def haulTruck77720 : Entity :=
  { id := "Haul_Truck_CAT_777_20", type := some "HaulTruck" }

/-- Telemetry record at time `i` on path `p`. -/
def recOn (i : ℤ) (p : String) : TelemetryRecord :=
  { timestamp := i, haulPathId := some p }

/-- The path sequence `[A, A, B, A, B, B, C]` of the trip-counting
example, in timestamp order. -/
def exTrips : List TelemetryRecord :=
  [recOn 1 "A", recOn 2 "A", recOn 3 "B", recOn 4 "A", recOn 5 "B",
   recOn 6 "B", recOn 7 "C"]

/-- Resolved count query with the given path filters. -/
def countQuery (src dst : Option String) : ResolvedQuery :=
  { intent := .count, filters := some { sourcePath := src, destinationPath := dst } }

/-- Constraint row with `min = 0`, `max = 100` of the validation-boundary
scenario. -/
def row0to100 : ConstraintRow :=
  { minValue := some 0, maxValue := some 100 }

/-- Number-typed cached property carrying current value 50, used by the
validation witnesses. -/
def pdNum50 : PropertyValue :=
  { value := some (.num 50), type := "number" }

/-- Entity with the single number-typed property `"focus"`, used by the
validation witnesses. -/
def entFocus : Entity :=
  { id := "T1", type := some "HaulTruck", properties := some [("focus", pdNum50)] }

/-- Content item for `focusSnapDistanceMeters` with current and default
value 150, used by the mutation witnesses. -/
def itemFocusSnap : ContentItem :=
  { atType := "Property", name := "focusSnapDistanceMeters",
    value := some (.num 150), initialValue := some (.num 150) }

/-- Cached property matching `itemFocusSnap`. -/
def pdFocusSnap : PropertyValue :=
  { value := some (.num 150), type := "number" }

/-- Entity whose cache and contents both hold `focusSnapDistanceMeters`,
used by the mutation witnesses. -/
def entCam : Entity :=
  { id := "Cam1",
    properties := some [("focusSnapDistanceMeters", pdFocusSnap)],
    contents := some [itemFocusSnap] }

/-- One-entity model around `entCam`. -/
def camModel : DTDLModel := ⟨[entCam]⟩

/-- Telemetry-sourced descriptor for the raw `speedMph` field. -/
def speedProp : PropInfo :=
  { name := "speedMph", source := "telemetry", telemetryField := some "speedMph" }

/-- Telemetry-sourced descriptor for `engineTemp`. -/
def tempProp : PropInfo :=
  { name := "engineTemp", source := "telemetry", telemetryField := some "engineTemp" }

/-- Schema-sourced (`dtdl`) descriptor with a current and an initial
value. -/
def dtdlProp : PropInfo :=
  { name := "focusSnapDistanceMeters", source := "dtdl", type := "number",
    value := some (.num 300), initialValue := some (.num 150) }

/-- Single record with a 10 mph speed reading. -/
def speed10Rec : TelemetryRecord := { timestamp := 0, speedMph := some 10 }

/-- Rising-edge count of a boolean trace starting from state `prev`:
the number of positions whose value is `true` while the previous
value (initially `prev`) is `false`.  Used to characterise
`countTripsOnPath` as counting entries into the path. -/
def risesFrom (prev : Bool) : List Bool → ℕ
  | [] => 0
  | b :: bs => (if b && !prev then 1 else 0) + risesFrom b bs

/-- Constant property resolver used by the command-resolution witness. -/
def constResolver (p : PropInfo) : Entity → String → PropertyResolutionResult :=
  fun _ _ => { success := true, property := some p }

/-!
Theorems for the spec claims.
-/

/-- C1 (counterexample): the claim asserts that resolving
`"truck 777 2"` against a model containing both `"Haul_Truck_CAT_777_2"`
and the decoy `"Haul_Truck_CAT_777_20"` returns the former via the
typed-identifier stage regardless of insertion order.  With the decoy
inserted first, resolution returns the decoy, not
`"Haul_Truck_CAT_777_2"`. -/
theorem C1_counterexample :
    EntityResolver.resolve "truck 777 2" ⟨[haulTruck77720, haulTruck7772]⟩ =
      some haulTruck77720 ∧
    haulTruck77720.id ≠ "Haul_Truck_CAT_777_2" :=
  ⟨by decide, by decide⟩

/-- C1 (amended): resolution is the fixed strict-to-loose cascade with
the first hit in model-insertion-order winning — an exact raw-id match
always wins, and the token-subset stage decides exactly when the three
stronger stages produce nothing.  However, for the reference
`"truck 777 2"` the typed-identifier regex cannot match (normalisation
turned the spaces into underscores, which `\s` does not match), and the
earlier token-subset stage matches both `"Haul_Truck_CAT_777_2"` and
the decoy `"Haul_Truck_CAT_777_20"` (whose id contains `"truck"`,
`"777"` and `"2"`), so whichever of the two was inserted first is
returned. -/
theorem C1_cascade_token_subset :
    (∀ (reference : String) (model : DTDLModel) (e : Entity),
      EntityResolver.exactStage reference model = some e →
      EntityResolver.resolve reference model = some e) ∧
    (∀ (reference : String) (model : DTDLModel) (e : Entity),
      EntityResolver.exactStage reference model = none →
      EntityResolver.normalizedStage (normalizeRef reference) model = none →
      EntityResolver.caseInsensitiveStage (normalizeRef reference) model = none →
      EntityResolver.tokenSubsetStage (normalizeRef reference) model = some e →
      EntityResolver.resolve reference model = some e) ∧
    normalizeRef "truck 777 2" = "truck_777_2".data ∧
    typedMatch (normalizeRef "truck 777 2") = none ∧
    EntityResolver.tokenSubsetStage (normalizeRef "truck 777 2")
      ⟨[haulTruck7772, haulTruck77720]⟩ = some haulTruck7772 ∧
    EntityResolver.tokenSubsetStage (normalizeRef "truck 777 2")
      ⟨[haulTruck77720, haulTruck7772]⟩ = some haulTruck77720 ∧
    EntityResolver.resolve "truck 777 2" ⟨[haulTruck7772, haulTruck77720]⟩ =
      some haulTruck7772 ∧
    EntityResolver.resolve "truck 777 2" ⟨[haulTruck77720, haulTruck7772]⟩ =
      some haulTruck77720 := by
  refine ⟨?_, ?_, by decide, by decide, by decide, by decide, by decide, by decide⟩
  · intro reference model e h
    simp [EntityResolver.resolve, h]
  · intro reference model e h1 h2 h3 h4
    simp [EntityResolver.resolve, h1, h2, h3, h4]

/-- C1 (witness): the cascade facts of the amended theorem applied at a
concrete input. -/
theorem C1_cascade_token_subset_witness :
    EntityResolver.resolve "Haul_Truck_CAT_777_20"
      ⟨[haulTruck77720, haulTruck7772]⟩ = some haulTruck77720 :=
  C1_cascade_token_subset.1 "Haul_Truck_CAT_777_20"
    ⟨[haulTruck77720, haulTruck7772]⟩ haulTruck77720 (by decide)

/-- The on-path trip count from any starting flag equals the number of
rising edges of the boolean on-path trace. -/
theorem countOnPathGo_eq_risesFrom (p : String) (w : Bool)
    (tel : List TelemetryRecord) :
    CountExecutor.countOnPathGo p w tel =
      risesFrom w (tel.map (fun r => r.haulPathId = some p)) := by
  induction tel generalizing w with
  | nil => rfl
  | cons r rest ih =>
    simp [CountExecutor.countOnPathGo, risesFrom, ih]

/-- C2: with source and destination paths both given and distinct, the
count executor returns the source-to-destination trip count (scan the
time-ordered records, count a trip whenever a record transitions onto
the destination while the "currently on source" flag is set, clearing
the flag); with a source path only it returns the entry count into that
path — which equals the number of rising edges of the on-path trace.
On `[A, A, B, A, B, B, C]` both counts are exactly 2. -/
theorem C2_count_executor :
    (∀ (q : ResolvedQuery) (tel : List TelemetryRecord) (s d : String),
      tel ≠ [] → q.filters = some ⟨some s, some d⟩ → s ≠ "" → d ≠ "" → s ≠ d →
      CountExecutor.execute q tel =
        { value := .num (CountExecutor.countTripsBetweenPaths tel s d),
          units := "trips", recordCount := some tel.length,
          timeWindow := q.timeWindow }) ∧
    (∀ (q : ResolvedQuery) (tel : List TelemetryRecord) (s : String),
      tel ≠ [] → q.filters = some ⟨some s, none⟩ → s ≠ "" →
      CountExecutor.execute q tel =
        { value := .num (CountExecutor.countTripsOnPath tel s),
          units := "trips", recordCount := some tel.length,
          timeWindow := q.timeWindow }) ∧
    (∀ (tel : List TelemetryRecord) (p : String),
      CountExecutor.countTripsOnPath tel p =
        risesFrom false (tel.map (fun r => r.haulPathId = some p))) ∧
    CountExecutor.countTripsBetweenPaths exTrips "A" "B" = 2 ∧
    CountExecutor.countTripsOnPath exTrips "A" = 2 ∧
    (CountExecutor.execute (countQuery (some "A") (some "B")) exTrips).value =
      .num 2 := by
  refine ⟨?_, ?_, ?_, by decide, by decide, by decide⟩
  · intro q tel s d hne hf hs hd hsd
    have hlen : tel.length ≠ 0 := by simpa using hne
    simp [CountExecutor.execute, hf, hlen, jsStrTruthy, hs, hd, hsd]
  · intro q tel s hne hf hs
    have hlen : tel.length ≠ 0 := by simpa using hne
    simp [CountExecutor.execute, hf, hlen, jsStrTruthy, hs]
  · intro tel p
    exact countOnPathGo_eq_risesFrom p false tel

/-- C2 (witness): the trip-count dispatch applied to the example
sequence. -/
theorem C2_count_executor_witness :
    CountExecutor.execute (countQuery (some "A") (some "B")) exTrips =
      { value := .num 2, units := "trips", recordCount := some 7,
        timeWindow := none } := by
  have h := C2_count_executor.1 (countQuery (some "A") (some "B")) exTrips "A" "B"
    (by decide) rfl (by decide) (by decide) (by decide)
  rw [h]; decide

/-- C9: when source and destination paths are equal, the count executor
behaves exactly as if only the source path had been given, and on a
non-empty window it counts entries into that single path. -/
theorem C9_equal_source_destination :
    (∀ (q : ResolvedQuery) (tel : List TelemetryRecord) (s : String),
      q.filters = some ⟨some s, some s⟩ →
      CountExecutor.execute q tel =
        CountExecutor.execute { q with filters := some ⟨some s, none⟩ } tel) ∧
    (∀ (q : ResolvedQuery) (tel : List TelemetryRecord) (s : String),
      q.filters = some ⟨some s, some s⟩ → s ≠ "" → tel ≠ [] →
      (CountExecutor.execute q tel).value =
        .num (CountExecutor.countTripsOnPath tel s)) := by
  constructor
  · intro q tel s hf
    by_cases hlen : tel.length = 0
    · simp [CountExecutor.execute, hlen]
    · simp [CountExecutor.execute, hf, hlen, jsStrTruthy]
  · intro q tel s hf hs hne
    have hlen : tel.length ≠ 0 := by simpa using hne
    simp [CountExecutor.execute, hf, hlen, jsStrTruthy, hs]

/-- C9 (witness): equal source and destination `"A"` on the example
sequence count entries into `"A"`. -/
theorem C9_equal_source_destination_witness :
    (CountExecutor.execute (countQuery (some "A") (some "A")) exTrips).value =
      .num 2 := by
  have h := C9_equal_source_destination.2 (countQuery (some "A") (some "A"))
    exTrips "A" rfl (by decide) (by decide)
  rw [h]; decide

/-- C3: for a number-typed editable property validated against the
constraint row `min = 0, max = 100`, the value `-10` is rejected with
the below-minimum error citing the minimum `0`, every value in the
inclusive range `0 ≤ v ≤ 100` (in particular exactly `100`) is
accepted, and `100.0001` is rejected with the above-maximum error.
Moreover the bound used comes from the constraint row when one is
present, else from the property's own declared constraints. -/
theorem C3_validation_bounds (entity : Entity) (property : String)
    (pd : PropertyValue)
    (hpd : entity.properties.bind (fun props => recordGet props property) = some pd)
    (hty : pd.type = "number")
    (hro : (pd.constraints.bind (fun c => c.readOnly)) ≠ some true) :
    ((pd.constraints.bind (fun c => c.allowedValues)) = none →
      validate entity property (.num (-10)) (some row0to100) =
        vFail (.belowMin (-10) 0) ∧
      (∀ v : ℚ, 0 ≤ v → v ≤ 100 →
        validate entity property (.num v) (some row0to100) = ⟨true, none⟩) ∧
      validate entity property (.num 100.0001) (some row0to100) =
        vFail (.aboveMax 100.0001 100)) ∧
    (∀ (c : ConstraintRow) (v lo : ℚ), c.minValue = some lo →
      c.readOnly = false → c.editable = true → v < lo →
      validate entity property (.num v) (some c) = vFail (.belowMin v lo)) ∧
    (pd.editable ≠ some false →
      ∀ (v lo : ℚ), (pd.constraints.bind (fun c => c.min)) = some lo → v < lo →
      validate entity property (.num v) none = vFail (.belowMin v lo)) := by
  refine ⟨fun hal => ⟨?_, ?_, ?_⟩, ?_, ?_⟩
  · simp [validate, hpd, hty, hro, hal, row0to100, jsTypeof, vFail]
  · intro v h0 h100
    have h1 : ¬ (v < 0) := not_lt.mpr h0
    have h2 : ¬ (v > 100) := not_lt.mpr h100
    simp [validate, hpd, hty, hro, hal, row0to100, jsTypeof, vFail, h1, h2]
  · simp [validate, hpd, hty, hro, hal, row0to100, jsTypeof, vFail]
    norm_num
  · intro c v lo hlo hcr hce hv
    simp [validate, hpd, hty, hro, hlo, hcr, hce, jsTypeof, vFail, hv]
  · intro hed v lo hlo hv
    simp [validate, hpd, hty, hro, hed, hlo, jsTypeof, vFail, hv]

/-- Replacing an entity (keeping its id) in the entity list leaves it
findable by id, returning the replacement. -/
theorem find_replace_by_id (l : List Entity) (id : String) (newE e : Entity)
    (h : l.find? (fun x => x.id = id) = some e) (hid : newE.id = id) :
    (l.map (fun x => if x.id = id then newE else x)).find? (fun x => x.id = id) =
      some newE := by
  induction l with
  | nil => simp at h
  | cons x xs ih =>
    rw [List.map_cons]
    by_cases hx : x.id = id
    · rw [if_pos hx]
      exact List.find?_cons_of_pos _ (by simp [hid])
    · rw [if_neg hx, List.find?_cons_of_neg _ (by simp [hx])]
      rw [List.find?_cons_of_neg _ (by simp [hx])] at h
      exact ih h

/-- Overwriting the `value` of the entry keyed `property` in the cache
association list updates exactly that entry's lookup result. -/
theorem recordGet_update (props : List (String × PropertyValue))
    (property : String) (pd : PropertyValue) (v : JSValue)
    (h : recordGet props property = some pd) :
    recordGet (props.map (fun kv =>
        if kv.1 = property then (kv.1, { kv.2 with value := some v }) else kv))
      property = some { pd with value := some v } := by
  induction props with
  | nil => simp [recordGet] at h
  | cons kv rest ih =>
    by_cases hk : kv.1 = property
    · unfold recordGet at h ⊢
      rw [List.find?_cons_of_pos _ (by simp [hk])] at h
      rw [List.map_cons, if_pos hk, List.find?_cons_of_pos _ (by simp [hk])]
      simp at h ⊢
      simp [h]
    · unfold recordGet at h ⊢
      rw [List.find?_cons_of_neg _ (by simp [hk])] at h
      rw [List.map_cons, if_neg hk, List.find?_cons_of_neg _ (by simp [hk])]
      exact ih h

/-- Updating the first element found by `p` makes the next `find? p`
return its image, provided the image still satisfies `p`. -/
theorem find_updateFirst {α : Type} (p : α → Bool) (f : α → α) (l : List α)
    (a : α) (h : l.find? p = some a) (hf : p (f a) = true) :
    (updateFirst p f l).find? p = some (f a) := by
  induction l with
  | nil => simp at h
  | cons x xs ih =>
    by_cases hx : p x = true
    · rw [List.find?_cons_of_pos _ hx] at h
      rw [Option.some_inj] at h
      subst h
      unfold updateFirst
      rw [if_pos hx]
      exact List.find?_cons_of_pos _ hf
    · have hx' : p x = false := by simpa using hx
      rw [List.find?_cons_of_neg _ (by simp [hx'])] at h
      unfold updateFirst
      rw [if_neg (by simp [hx'])]
      rw [List.find?_cons_of_neg _ (by simp [hx'])]
      exact ih h

/-- C4: when the entity exists and both its cache and its contents list
hold the named property, a property update succeeds, reports the old
cached value, and afterwards the new value is read back both from the
property cache and from the matching `Property` content item's current
value, while that item's declared `initialValue` is unchanged. -/
theorem C4_update_both_representations (m : DTDLModel)
    (entityId property : String) (v : JSValue) (entity : Entity)
    (pd : PropertyValue) (cs : List ContentItem) (item : ContentItem)
    (hent : m.getEntity entityId = some entity)
    (hpd : entity.properties.bind (fun props => recordGet props property) = some pd)
    (hcs : entity.contents = some cs)
    (hitem : cs.find? (isPropertyItem property) = some item) :
    ((m.updateEntityProperty entityId property v).1.success = true) ∧
    ((m.updateEntityProperty entityId property v).1.oldValue = pd.value) ∧
    (((m.updateEntityProperty entityId property v).2.getEntity entityId).bind
        (fun e => e.properties.bind (fun props => recordGet props property)))
      = some { pd with value := some v } ∧
    (((m.updateEntityProperty entityId property v).2.getEntity entityId).bind
        (fun e => e.contents.bind (fun l => l.find? (isPropertyItem property))))
      = some { item with value := some v } ∧
    ({ item with value := some v }).initialValue = item.initialValue := by
  obtain ⟨props, hprops, hget⟩ := Option.bind_eq_some.mp hpd
  have hid : entity.id = entityId := by
    have := List.find?_some hent
    exact of_decide_eq_true this
  have hfind : (m.updateEntityProperty entityId property v).2.getEntity entityId =
      some { entity with
        properties := some ((entity.properties.getD []).map (fun kv =>
          if kv.1 = property then (kv.1, { kv.2 with value := some v }) else kv)),
        contents := entity.contents.map
          (updateFirst (isPropertyItem property)
            (fun c => { c with value := some v })) } := by
    simp only [DTDLModel.updateEntityProperty, hent, hpd]
    exact find_replace_by_id m.entities entityId _ entity hent hid
  refine ⟨?_, ?_, ?_, ?_, rfl⟩
  · simp only [DTDLModel.updateEntityProperty, hent, hpd]
  · simp only [DTDLModel.updateEntityProperty, hent, hpd]
  · rw [hfind]
    simp only [Option.bind_some, hprops, Option.getD_some]
    exact recordGet_update props property pd v hget
  · rw [hfind]
    simp only [Option.bind_some, hcs, Option.map_some]
    have hprop : isPropertyItem property item = true := List.find?_some hitem
    have hprop' : isPropertyItem property { item with value := some v } = true := by
      simp [isPropertyItem] at hprop ⊢
      exact hprop
    exact find_updateFirst (isPropertyItem property) _ cs item hitem hprop'

/-- C4 (witness): updating `focusSnapDistanceMeters` to 300 on a
concrete one-entity model, then reading back from both
representations. -/
theorem C4_update_both_representations_witness :
    (((camModel.updateEntityProperty "Cam1" "focusSnapDistanceMeters"
          (.num 300)).2.getEntity "Cam1").bind
        (fun e => e.properties.bind
          (fun props => recordGet props "focusSnapDistanceMeters")))
      = some { pdFocusSnap with value := some (.num 300) } ∧
    (((camModel.updateEntityProperty "Cam1" "focusSnapDistanceMeters"
          (.num 300)).2.getEntity "Cam1").bind
        (fun e => e.contents.bind
          (fun l => l.find? (isPropertyItem "focusSnapDistanceMeters"))))
      = some { itemFocusSnap with value := some (.num 300) } := by
  have h := C4_update_both_representations camModel "Cam1"
    "focusSnapDistanceMeters" (.num 300) entCam pdFocusSnap [itemFocusSnap]
    itemFocusSnap (by decide) (by decide) rfl (by decide)
  exact ⟨h.2.2.1, h.2.2.2.1⟩

/-- C8: when the entity is missing, or the named property is absent
from the entity's cache, `updateEntityProperty` reports failure and the
model is left entirely unchanged. -/
theorem C8_error_leaves_model_unchanged :
    (∀ (m : DTDLModel) (entityId property : String) (v : JSValue),
      m.getEntity entityId = none →
      (m.updateEntityProperty entityId property v).1.success = false ∧
      (m.updateEntityProperty entityId property v).2 = m) ∧
    (∀ (m : DTDLModel) (entityId property : String) (v : JSValue)
        (entity : Entity),
      m.getEntity entityId = some entity →
      entity.properties.bind (fun props => recordGet props property) = none →
      (m.updateEntityProperty entityId property v).1.success = false ∧
      (m.updateEntityProperty entityId property v).2 = m) := by
  constructor
  · intro m entityId property v h
    simp [DTDLModel.updateEntityProperty, h]
  · intro m entityId property v entity h hp
    simp [DTDLModel.updateEntityProperty, h, hp]

/-- C8 (witness): a failed update against a missing entity leaves the
concrete model unchanged. -/
theorem C8_error_leaves_model_unchanged_witness :
    (camModel.updateEntityProperty "NoSuch" "p" (.num 1)).2 = camModel :=
  (C8_error_leaves_model_unchanged.1 camModel "NoSuch" "p" (.num 1)
    (by decide)).2

/-- C3 (witness): the validation boundary applied to a concrete entity
with a number-typed property. -/
theorem C3_validation_bounds_witness :
    validate entFocus "focus" (.num (-10)) (some row0to100) =
      vFail (.belowMin (-10) 0) ∧
    validate entFocus "focus" (.num 100) (some row0to100) = ⟨true, none⟩ ∧
    validate entFocus "focus" (.num 100.0001) (some row0to100) =
      vFail (.aboveMax 100.0001 100) := by
  have h := C3_validation_bounds entFocus "focus" pdNum50 (by decide) rfl
    (by decide)
  exact ⟨(h.1 rfl).1, (h.1 rfl).2.1 100 (by norm_num) (by norm_num),
    (h.1 rfl).2.2⟩

/-- C5: command resolution rejects with the `PROPERTY_NOT_EDITABLE`
domain error whenever the resolved property's source is telemetry
rather than schema, and the resolved command's scope defaults to
`"bulk"` when more than one entity resolves and `"single"` otherwise,
unless the intent explicitly states a scope. -/
theorem C5_command_telemetry_rejection
    (resolveProp : Entity → String → PropertyResolutionResult)
    (model : DTDLModel) (intent : CommandIntent) (e : Entity) (es : List Entity)
    (p : PropInfo) (er : Option String) (sg : Option (List String))
    (hbulk : EntityResolver.resolveBulk intent.targetEntity model intent.filter =
      some (e :: es))
    (hpr : resolveProp e intent.property = ⟨true, some p, er, sg⟩) :
    (p.source = "telemetry" →
      SchemaResolver.resolveCommand resolveProp model intent =
        .error ⟨"Property '" ++ intent.property ++
          "' is a telemetry field and cannot be modified. Only DTDL properties can be updated.",
          "PROPERTY_NOT_EDITABLE"⟩) ∧
    (p.source = "dtdl" → intent.scope = none →
      SchemaResolver.resolveCommand resolveProp model intent =
        .ok { action := intent.action, targetEntities := e :: es, property := p,
              value := intent.value,
              scope := if (e :: es).length > 1 then "bulk" else "single",
              filters := intent.filter }) ∧
    (p.source = "dtdl" → ∀ s : String, intent.scope = some s → s ≠ "" →
      SchemaResolver.resolveCommand resolveProp model intent =
        .ok { action := intent.action, targetEntities := e :: es, property := p,
              value := intent.value, scope := s, filters := intent.filter }) := by
  refine ⟨?_, ?_, ?_⟩
  · intro hsource
    simp [SchemaResolver.resolveCommand, hbulk, hpr, hsource]
  · intro hsource hscope
    simp [SchemaResolver.resolveCommand, hbulk, hpr, hsource, hscope, jsStrOr]
  · intro hsource s hscope hs
    simp [SchemaResolver.resolveCommand, hbulk, hpr, hsource, hscope, jsStrOr, hs]

/-- C5 (witness): a command targeting the telemetry-sourced `speedMph`
descriptor is rejected with the `PROPERTY_NOT_EDITABLE` error. -/
theorem C5_command_telemetry_rejection_witness :
    SchemaResolver.resolveCommand (constResolver speedProp) ⟨[haulTruck7772]⟩
      { action := "set", targetEntity := "truck 777 2", property := "speed",
        value := .num 1 } =
      .error ⟨"Property 'speed' is a telemetry field and cannot be modified. Only DTDL properties can be updated.",
        "PROPERTY_NOT_EDITABLE"⟩ := by
  have h := C5_command_telemetry_rejection (constResolver speedProp)
    ⟨[haulTruck7772]⟩
    { action := "set", targetEntity := "truck 777 2", property := "speed",
      value := .num 1 }
    haulTruck7772 [] speedProp none none (by decide) rfl
  exact h.1 rfl

/-- Dynamic access to the `speedMph` field is the record's `speedMph`
value. -/
theorem getField_speedMph (r : TelemetryRecord) :
    r.getField "speedMph" = r.speedMph.map .num := rfl

/-- C6: with zero telemetry records the property executor (on a
telemetry-sourced property) returns `"N/A"` with `recordCount 0` and
the aggregate executor returns `0` with `recordCount 0`, never an
error; with a non-empty window but zero extractable numeric values
(outside the route-utilization special case) the aggregate executor
returns `0` with `recordCount` equal to the raw record count, so "no
data" is distinguishable from "no numeric data" and from a true zero
via `recordCount = 0`. -/
theorem C6_empty_window_results :
    (∀ (q : ResolvedQuery) (p : PropInfo),
      q.property = some p → p.source = "telemetry" →
      PropertyExecutor.execute q [] =
        .ok { value := .str "N/A",
              units := PropertyExecutor.getUnitsForProperty p,
              recordCount := some 0 }) ∧
    (∀ (hs : Bool) (q : ResolvedQuery) (op : AggOp),
      q.operation = some op →
      AggregateExecutor.execute hs q [] =
        .ok { value := .num 0,
              units := AggregateExecutor.getUnitsForProperty q.property,
              recordCount := some 0 }) ∧
    (∀ (hs : Bool) (q : ResolvedQuery) (op : AggOp)
        (tel : List TelemetryRecord),
      q.operation = some op → tel ≠ [] →
      (op = AggOp.average && q.property = none &&
        jsStrTruthy (q.filters.bind (fun f => f.sourcePath)) && hs &&
        q.timeWindow.isSome) = false →
      AggregateExecutor.extractValues tel
        (AggregateExecutor.getAggregateField q) = [] →
      AggregateExecutor.execute hs q tel =
        .ok { value := .num 0,
              units := AggregateExecutor.getUnitsForProperty q.property,
              recordCount := some tel.length }) := by
  refine ⟨?_, ?_, ?_⟩
  · intro q p hq hp
    simp [PropertyExecutor.execute, hq, hp, latestRecord]
  · intro hs q op hop
    simp [AggregateExecutor.execute, hop]
  · intro hs q op tel hop hne hU hext
    have hlen : tel.length ≠ 0 := by simpa using hne
    simp [AggregateExecutor.execute, hop, hlen, hU, hext]

/-- C6 (witness): empty-window and no-numeric-data results for the
`engineTemp` descriptor. -/
theorem C6_empty_window_results_witness :
    PropertyExecutor.execute
      { intent := .get_property, property := some tempProp } [] =
      .ok { value := .str "N/A", units := "°F", recordCount := some 0 } ∧
    AggregateExecutor.execute true
      { intent := .aggregate, operation := some .average,
        property := some tempProp } [] =
      .ok { value := .num 0, units := "°F", recordCount := some 0 } ∧
    AggregateExecutor.execute true
      { intent := .aggregate, operation := some .average,
        property := some tempProp } [recOn 1 "A"] =
      .ok { value := .num 0, units := "°F", recordCount := some 1 } := by
  refine ⟨?_, ?_, ?_⟩
  · have h := C6_empty_window_results.1
      { intent := .get_property, property := some tempProp } tempProp rfl rfl
    rw [h]; rfl
  · have h := C6_empty_window_results.2.1 true
      { intent := .aggregate, operation := some .average,
        property := some tempProp } .average rfl
    rw [h]; rfl
  · have h := C6_empty_window_results.2.2 true
      { intent := .aggregate, operation := some .average,
        property := some tempProp } .average [recOn 1 "A"] rfl (by decide)
      (by decide) (by decide)
    rw [h]; rfl

/-- C7: every numeric `speedMph` reading is converted to km/h by the
factor 1.60934 — in the aggregate executor's value extraction (before
aggregation) and in the property executor on the latest record — and a
10 mph reading yields exactly 16.0934. -/
theorem C7_speed_conversion :
    (∀ tel : List TelemetryRecord,
      AggregateExecutor.extractValues tel "speedMph" =
        (tel.filterMap (fun r => r.speedMph)).map (fun v => v * 1.60934)) ∧
    (∀ (q : ResolvedQuery) (p : PropInfo) (tel : List TelemetryRecord)
        (r : TelemetryRecord) (v : ℚ),
      q.property = some p → p.source = "telemetry" →
      jsStrOr p.telemetryField p.name = "speedMph" →
      latestRecord tel = some r → r.speedMph = some v →
      PropertyExecutor.execute q tel =
        .ok { value := .num (v * 1.60934), units := "km/h",
              recordCount := some tel.length }) ∧
    AggregateExecutor.extractValues [speed10Rec] "speedMph" = [16.0934] := by
  refine ⟨?_, ?_, ?_⟩
  · intro tel
    induction tel with
    | nil => rfl
    | cons r rest ih =>
      cases hr : r.speedMph with
      | none =>
        simp only [AggregateExecutor.extractValues, List.filterMap_cons,
          getField_speedMph, hr] at ih ⊢
        simpa using ih
      | some v =>
        simp only [AggregateExecutor.extractValues, List.filterMap_cons,
          getField_speedMph, hr] at ih ⊢
        simpa using ih
  · intro q p tel r v hq hp hf hl hv
    simp [PropertyExecutor.execute, hq, hp, hf, hl, getField_speedMph, hv]
  · have h : AggregateExecutor.extractValues [speed10Rec] "speedMph" =
        [(10 : ℚ) * 1.60934] := by
      simp [AggregateExecutor.extractValues, getField_speedMph, speed10Rec]
    rw [h]
    norm_num

/-- C7 (witness): the property executor reports 16.0934 km/h for a
10 mph reading. -/
theorem C7_speed_conversion_witness :
    PropertyExecutor.execute
      { intent := .get_property, property := some speedProp } [speed10Rec] =
      .ok { value := .num 16.0934, units := "km/h", recordCount := some 1 } := by
  have h := C7_speed_conversion.2.1
    { intent := .get_property, property := some speedProp } speedProp
    [speed10Rec] speed10Rec 10 rfl rfl rfl rfl rfl
  rw [h]
  norm_num

/-- C10: for a schema-sourced (`dtdl`) property the property executor
returns the current value when defined, else the initial value when
defined, else the string `"N/A"`, independently of the telemetry window
passed in. -/
theorem C10_schema_property_ignores_telemetry :
    (∀ (q : ResolvedQuery) (p : PropInfo) (tel tel' : List TelemetryRecord),
      q.property = some p → p.source = "dtdl" →
      PropertyExecutor.execute q tel = PropertyExecutor.execute q tel') ∧
    (∀ (q : ResolvedQuery) (p : PropInfo) (tel : List TelemetryRecord),
      q.property = some p → p.source = "dtdl" →
      PropertyExecutor.execute q tel =
        .ok { value := (p.value.orElse (fun _ => p.initialValue)).getD (.str "N/A"),
              units := PropertyExecutor.getUnitsForProperty p }) ∧
    (∀ (q : ResolvedQuery) (p : PropInfo) (tel : List TelemetryRecord)
        (v : JSValue),
      q.property = some p → p.source = "dtdl" → p.value = some v →
      PropertyExecutor.execute q tel =
        .ok { value := v, units := PropertyExecutor.getUnitsForProperty p }) ∧
    (∀ (q : ResolvedQuery) (p : PropInfo) (tel : List TelemetryRecord)
        (i : JSValue),
      q.property = some p → p.source = "dtdl" → p.value = none →
      p.initialValue = some i →
      PropertyExecutor.execute q tel =
        .ok { value := i, units := PropertyExecutor.getUnitsForProperty p }) ∧
    (∀ (q : ResolvedQuery) (p : PropInfo) (tel : List TelemetryRecord),
      q.property = some p → p.source = "dtdl" → p.value = none →
      p.initialValue = none →
      PropertyExecutor.execute q tel =
        .ok { value := .str "N/A",
              units := PropertyExecutor.getUnitsForProperty p }) := by
  refine ⟨?_, ?_, ?_, ?_, ?_⟩
  · intro q p tel tel' hq hp
    simp [PropertyExecutor.execute, hq, hp]
  · intro q p tel hq hp
    simp [PropertyExecutor.execute, hq, hp]
  · intro q p tel v hq hp hv
    simp [PropertyExecutor.execute, hq, hp, hv]
  · intro q p tel i hq hp hv hi
    simp [PropertyExecutor.execute, hq, hp, hv, hi]
  · intro q p tel hq hp hv hi
    simp [PropertyExecutor.execute, hq, hp, hv, hi]

/-- C10 (witness): the schema-sourced descriptor returns its current
value 300 for any telemetry window, here a non-empty one. -/
theorem C10_schema_property_ignores_telemetry_witness :
    PropertyExecutor.execute
      { intent := .get_property, property := some dtdlProp } [recOn 1 "A"] =
      .ok { value := .num 300, units := "" } := by
  have h := C10_schema_property_ignores_telemetry.2.2.1
    { intent := .get_property, property := some dtdlProp } dtdlProp
    [recOn 1 "A"] (.num 300) rfl rfl rfl
  rw [h]; rfl

end DTDL
